import Mathlib

/-!
Verification of the atoa_go delegated credential issuance and verification
subsystem (token.go, org.go, agent.go), as a shallow embedding in Lean 4.

Modelling conventions:
  - ECDSA key pairs are idealized (EUF-CMA): a public key is an opaque
    identifier, a private key carries its public counterpart (as
    `ecdsa.PrivateKey` embeds `PublicKey`), and a signature verifies
    exactly when it was produced over the same message with the private
    key matching the checked public key.  Signing randomness is ignored:
    every honestly produced signature verifies.
  - SHA-256 is idealized as a collision-free digest: `Digest` keeps the
    preimage, so distinct inputs have distinct digests.
  - Wire strings (PEM blocks, base64 signatures, compact JWT strings) are
    modelled as inductive types whose constructors partition the input
    space of the corresponding Go decoder: a constructor for each
    decodable shape plus one for undecodable raw strings.
  - Clocks: Go's `time.Now()` is injected as an explicit `now : Int`
    parameter (unix seconds), the standard embedding of a wall clock.
  - The JWT parser is golang-jwt/jwt v5 with `WithExpirationRequired()`
    and `WithIssuedAt()`: after structural parsing it runs the keyfunc,
    base64-decodes the signature segment, verifies the signature and only
    then validates the temporal claims.  `WithExpirationRequired` makes
    `exp` mandatory; `WithIssuedAt` validates `iat` only when present.
-/

namespace Atoa

/-- Idealized ECDSA public key: an opaque identifier standing for the
curve point.  Distinct key pairs have distinct identifiers. -/
structure PublicKey where
  id : Nat
deriving DecidableEq

/-- Idealized ECDSA private key; like `ecdsa.PrivateKey` it embeds its
public counterpart. -/
structure PrivateKey where
  pub : PublicKey
deriving DecidableEq

/-- Constant `TokenIssuer` from token.go: the issuer of all Atoa tokens. -/
def TokenIssuer : String := "atoa.platform"

/-- Constant `OrgTokenAudience` from token.go. -/
def OrgTokenAudience : String := "atoa.agent"

/-- Constant `AgentTokenAudience` from token.go. -/
def AgentTokenAudience : String := "atoa.session"

/-- Constant `DefaultTokenExpiry` from token.go: 1 hour, in seconds. -/
def DefaultTokenExpiry : Int := 3600

/-- The JOSE algorithm declared in a token header.  `SigningMethodECDSA`
covers es256/es384/es512; the remaining constructors stand for the
non-ECDSA methods a presented token could declare. -/
inductive SigAlg where
  | es256
  | es384
  | es512
  | hs256
  | rs256
  | algNone
deriving DecidableEq

/-- Whether the declared method type-asserts to `*jwt.SigningMethodECDSA`. -/
def SigAlg.isECDSA : SigAlg → Bool
  | .es256 => true
  | .es384 => true
  | .es512 => true
  | _ => false

/-- The decoded JSON payload of a token: every claim field that can occur
in an org or agent token, each optional (absent in JSON = `none`).
Audiences are modelled as string lists, matching how `jwt.ClaimStrings`
serializes. -/
structure RawClaims where
  iss : Option String := none
  aud : Option (List String) := none
  iat : Option Int := none
  exp : Option Int := none
  nbf : Option Int := none
  org_id : Option String := none
  verified : Option Bool := none
  agent_id : Option String := none
  capabilities : Option (List String) := none
deriving DecidableEq

/-- Idealized ECDSA token signature: records the header algorithm and
payload it signs and the key that produced it. -/
structure Sig where
  alg : SigAlg
  payload : RawClaims
  keyId : Nat
deriving DecidableEq

/-- The third segment of a compact JWT: either the base64 decoding
succeeds and yields a signature value, or it is undecodable
(`ErrTokenMalformed` in the parser). -/
inductive SigSeg where
  | valid (s : Sig)
  | undecodable (raw : String)
deriving DecidableEq

/-- A candidate token string: either it parses structurally into header
algorithm, payload and signature segment, or `ParseUnverified` fails on
it. -/
inductive TokenStr where
  | wellFormed (alg : SigAlg) (payload : RawClaims) (sig : SigSeg)
  | garbage (raw : String)
deriving DecidableEq

/-- Name of the `exp` claim, for required-claim-missing errors. -/
def expClaimName : String := "exp"

/-- Claim-validation failure reasons of the golang-jwt v5 validator. -/
inductive ClaimErr where
  | expired
  | notValidYet
  | usedBeforeIssued
  | requiredClaimMissing (claim : String)
deriving DecidableEq

/-- Top-level parser error kinds of golang-jwt v5, as distinguishable by
`errors.Is` on the wrapped sentinel errors. -/
inductive JwtError where
  | malformed
  | unverifiable
  | signatureInvalid
  | invalidClaims (reasons : List ClaimErr)
deriving DecidableEq

/-- The v5 `Validator.Validate` under `WithExpirationRequired()` and
`WithIssuedAt()`: `exp` is required and must be in the future
(`now < exp`); `nbf` and `iat` are validated only when present
(`nbf ≤ now`, `iat ≤ now`).  Returns the list of collected errors. -/
def validateClaims (now : Int) (p : RawClaims) : List ClaimErr :=
  (match p.exp with
   | none => [ClaimErr.requiredClaimMissing expClaimName]
   | some e => if now < e then [] else [ClaimErr.expired]) ++
  (match p.nbf with
   | none => []
   | some n => if n ≤ now then [] else [ClaimErr.notValidYet]) ++
  (match p.iat with
   | none => []
   | some i => if i ≤ now then [] else [ClaimErr.usedBeforeIssued])

/-- What a keyfunc hands back on success: a public key, or a nil
interface value (as the keyless parsers in this repository return). -/
inductive KeyChoice where
  | somePub (pk : PublicKey)
  | nilKey
deriving DecidableEq

/-- The `SigningMethodECDSA.Verify` step: a nil key is rejected
(`ErrInvalidKeyType`, hence no signature ever verifies); a real key
verifies exactly the signature produced over this header and payload by
the matching private key. -/
def ecdsaVerifyToken : KeyChoice → SigAlg → RawClaims → Sig → Bool
  | .nilKey, _, _, _ => false
  | .somePub pk, alg, payload, sig =>
    (sig.alg == alg) && (sig.payload == payload) && (sig.keyId == pk.id)

/-- The v5 `Parser.ParseWithClaims` pipeline shared by every parse entry
point in this repository: structural parse, keyfunc (`none` = the
keyfunc returned an error, `ErrTokenUnverifiable`), signature-segment
decode, signature verification, then claim validation. -/
def parseWithClaims (tok : TokenStr) (keyfunc : SigAlg → Option KeyChoice)
    (now : Int) : Except JwtError RawClaims :=
  match tok with
  | .garbage _ => .error .malformed
  | .wellFormed alg payload sigSeg =>
    match keyfunc alg with
    | none => .error .unverifiable
    | some kc =>
      match sigSeg with
      | .undecodable _ => .error .malformed
      | .valid sig =>
        if ecdsaVerifyToken kc alg payload sig then
          match validateClaims now payload with
          | [] => .ok payload
          | e :: errs => .error (.invalidClaims (e :: errs))
        else .error .signatureInvalid

/-- `ParseTokenWithPublicKey` from token.go: its keyfunc rejects
non-ECDSA signing methods and otherwise returns the supplied public
key. -/
def ParseTokenWithPublicKey (tok : TokenStr) (publicKey : PublicKey)
    (now : Int) : Except JwtError RawClaims :=
  parseWithClaims tok
    (fun alg => if alg.isECDSA then some (.somePub publicKey) else none) now

/-- The keyfunc of `ParseOrgToken`, `ParseAgentTokenClaims` and
`ParseAgentToken`: rejects non-ECDSA methods, and for ECDSA returns
`nil, nil` (no trusted key source is wired up yet). -/
def nilKeyfunc (alg : SigAlg) : Option KeyChoice :=
  if alg.isECDSA then some .nilKey else none

/-- Embedding of `getStringClaim` from agent.go, and of JSON unmarshal
defaulting for string fields: a missing claim becomes the empty string. -/
def getStringClaim : Option String → String
  | some s => s
  | none => ""

/-- Embedding of `getBoolClaim` from agent.go: missing becomes `false`. -/
def getBoolClaim : Option Bool → Bool
  | some b => b
  | none => false

/-- Embedding of `getFloatClaim` from agent.go (with the `int64` cast at
the call site): missing becomes `0`. -/
def getFloatClaim : Option Int → Int
  | some n => n
  | none => 0

/-- Embedding of `getStringSliceClaim` from agent.go: missing becomes
nil. -/
def getStringSliceClaim : Option (List String) → List String
  | some l => l
  | none => []

/-- `getStringClaim claims "aud"` when the audience is a JSON array: the
type assertion to `string` fails, so the result is always empty. -/
def audStringClaim : Option (List String) → String
  | some _ => ""
  | none => ""

/-- `OrgTokenClaims` from token.go after JSON decoding: registered
fields plus `org_id` and `verified`, with Go zero-value defaults for
absent claims. -/
structure OrgTokenClaims where
  iss : String
  aud : List String
  iat : Option Int
  exp : Option Int
  orgID : String
  verified : Bool
deriving DecidableEq

/-- JSON decoding of a payload into `OrgTokenClaims`. -/
def decodeOrgClaims (p : RawClaims) : OrgTokenClaims :=
  { iss := getStringClaim p.iss
    aud := getStringSliceClaim p.aud
    iat := p.iat
    exp := p.exp
    orgID := getStringClaim p.org_id
    verified := getBoolClaim p.verified }

/-- `AgentTokenClaims` from token.go after JSON decoding. -/
structure AgentTokenClaims where
  iss : String
  aud : List String
  iat : Option Int
  exp : Option Int
  agentID : String
  orgID : String
  verified : Bool
  capabilities : List String
deriving DecidableEq

/-- JSON decoding of a payload into `AgentTokenClaims`. -/
def decodeAgentClaims (p : RawClaims) : AgentTokenClaims :=
  { iss := getStringClaim p.iss
    aud := getStringSliceClaim p.aud
    iat := p.iat
    exp := p.exp
    agentID := getStringClaim p.agent_id
    orgID := getStringClaim p.org_id
    verified := getBoolClaim p.verified
    capabilities := getStringSliceClaim p.capabilities }

/-- `AgentCard` from agent.go. -/
structure AgentCard where
  agentID : String
  orgID : String
  capabilities : List String
  endpoints : List String
  verified : Bool
deriving DecidableEq

/-- Errors of `AgentCard.Validate`, one per distinct message. -/
inductive AgentCardErr where
  | agentIdRequired
  | orgIdRequired
  | capabilityRequired
deriving DecidableEq

/-- `AgentCard.Validate` from agent.go; `none` is success (`nil`). -/
def AgentCard.Validate (ac : AgentCard) : Option AgentCardErr :=
  if ac.agentID = "" then some .agentIdRequired
  else if ac.orgID = "" then some .orgIdRequired
  else if ac.capabilities.length = 0 then some .capabilityRequired
  else none

/-- The claim set built by `IssueOrgToken`. -/
def orgPayload (orgID : String) (verified : Bool) (now : Int) : RawClaims :=
  { iss := some TokenIssuer
    aud := some [OrgTokenAudience]
    iat := some now
    exp := some (now + DefaultTokenExpiry)
    org_id := some orgID
    verified := some verified }

/-- `IssueOrgToken` from token.go: builds the org claim set and signs it
with ES256 under the given private key. -/
def IssueOrgToken (orgID : String) (verified : Bool) (privateKey : PrivateKey)
    (now : Int) : TokenStr :=
  .wellFormed .es256 (orgPayload orgID verified now)
    (.valid { alg := .es256, payload := orgPayload orgID verified now
              keyId := privateKey.pub.id })

/-- Errors of `IssueAgentToken`: the wrapped verifier failure for an
invalid org token, and the distinct org-id mismatch error. -/
inductive IssueErr where
  | invalidOrgToken (e : JwtError)
  | orgIdMismatch
deriving DecidableEq

/-- The claim set built by `IssueAgentToken`, with the verified flag
taken from the org claims. -/
def agentPayload (card : AgentCard) (verified : Bool) (now : Int) : RawClaims :=
  { iss := some TokenIssuer
    aud := some [AgentTokenAudience]
    iat := some now
    exp := some (now + DefaultTokenExpiry)
    org_id := some card.orgID
    verified := some verified
    agent_id := some card.agentID
    capabilities := some card.capabilities }

/-- `IssueAgentToken` from token.go: verifies the presented org token
against the issuer's own public key, enforces the org-id delegation
check, then builds and signs the agent claim set, inheriting the
verification status from the org claims. -/
def IssueAgentToken (card : AgentCard) (orgToken : TokenStr)
    (privateKey : PrivateKey) (now : Int) : Except IssueErr TokenStr :=
  match ParseTokenWithPublicKey orgToken privateKey.pub now with
  | .error e => .error (.invalidOrgToken e)
  | .ok p =>
    let orgClaims := decodeOrgClaims p
    if orgClaims.orgID ≠ card.orgID then .error .orgIdMismatch
    else
      .ok (.wellFormed .es256 (agentPayload card orgClaims.verified now)
        (.valid { alg := .es256
                  payload := agentPayload card orgClaims.verified now
                  keyId := privateKey.pub.id }))

/-- `ParseOrgToken` from token.go: `ParseUnverified` first, then the
full parse with the keyless keyfunc, then typed claim extraction. -/
def ParseOrgToken (tok : TokenStr) (now : Int) :
    Except JwtError OrgTokenClaims :=
  match tok with
  | .garbage _ => .error .malformed
  | .wellFormed _ _ _ =>
    match parseWithClaims tok nilKeyfunc now with
    | .error e => .error e
    | .ok p => .ok (decodeOrgClaims p)

/-- `ParseAgentTokenClaims` from token.go, same shape as
`ParseOrgToken` with agent claims. -/
def ParseAgentTokenClaims (tok : TokenStr) (now : Int) :
    Except JwtError AgentTokenClaims :=
  match tok with
  | .garbage _ => .error .malformed
  | .wellFormed _ _ _ =>
    match parseWithClaims tok nilKeyfunc now with
    | .error e => .error e
    | .ok p => .ok (decodeAgentClaims p)

/-- `AgentToken` from agent.go. -/
structure AgentToken where
  agentID : String
  orgID : String
  verified : Bool
  capabilities : List String
  exp : Int
  iss : String
  aud : String
deriving DecidableEq

/-- Errors of `AgentToken.Validate`, one per distinct message. -/
inductive AgentTokenErr where
  | agentIdRequired
  | orgIdRequired
  | expRequired
  | issRequired
  | audRequired
  | tokenExpired
deriving DecidableEq

/-- `AgentToken.Validate` from agent.go: required-field checks, then
expiry against the injected clock (`time.Now().Unix() > exp`). -/
def AgentToken.Validate (at_ : AgentToken) (now : Int) : Option AgentTokenErr :=
  if at_.agentID = "" then some .agentIdRequired
  else if at_.orgID = "" then some .orgIdRequired
  else if at_.exp = 0 then some .expRequired
  else if at_.iss = "" then some .issRequired
  else if at_.aud = "" then some .audRequired
  else if now > at_.exp then some .tokenExpired
  else none

/-- Errors of `ParseAgentToken`: a parser failure, or a structural
failure from `AgentToken.Validate`. -/
inductive ParseAgentTokenErr where
  | jwtError (e : JwtError)
  | invalidToken (e : AgentTokenErr)
deriving DecidableEq

/-- `ParseAgentToken` from agent.go: `jwt.Parse` with the keyless
keyfunc and the same parser options, then per-field claim extraction via
the `get*Claim` helpers, then `AgentToken.Validate`. -/
def ParseAgentToken (tok : TokenStr) (now : Int) :
    Except ParseAgentTokenErr AgentToken :=
  match parseWithClaims tok nilKeyfunc now with
  | .error e => .error (.jwtError e)
  | .ok claims =>
    let agentToken : AgentToken :=
      { agentID := getStringClaim claims.agent_id
        orgID := getStringClaim claims.org_id
        verified := getBoolClaim claims.verified
        capabilities := getStringSliceClaim claims.capabilities
        exp := getFloatClaim claims.exp
        iss := getStringClaim claims.iss
        aud := audStringClaim claims.aud }
    match agentToken.Validate now with
    | some e => .error (.invalidToken e)
    | none => .ok agentToken

/-- The `verified` claim carried by a token string, when well formed. -/
def TokenStr.verifiedClaim : TokenStr → Option Bool
  | .wellFormed _ p _ => p.verified
  | .garbage _ => none

/-- Idealized collision-free SHA-256 digest: keeps its preimage, so
distinct inputs never collide. -/
structure Digest where
  preimage : String
deriving DecidableEq

/-- `sha256.Sum256` over a challenge string. -/
def sha256 (s : String) : Digest := ⟨s⟩

/-- Idealized ASN.1 DER ECDSA signature over a digest: records the
digest signed and the key that produced it. -/
structure ChalSig where
  digest : Digest
  keyId : Nat
deriving DecidableEq

/-- A candidate base64 signature string, partitioned as the Go decoders
see it: a well-formed encoding of a DER signature, a base64-decodable
string whose bytes are not a DER signature (`ecdsa.VerifyASN1` returns
false on it), or a string that is not valid base64. -/
inductive B64SigStr where
  | enc (sig : ChalSig)
  | junk (raw : String)
  | notB64 (raw : String)
deriving DecidableEq

/-- DER bytes inside a PEM block, partitioned as
`x509.ParsePKIXPublicKey` sees them: an ECDSA public key, a well-formed
public key of another algorithm, or unparseable bytes. -/
inductive KeyDer where
  | ecdsaPub (id : Nat)
  | otherPub (id : Nat)
  | badDer (raw : String)
deriving DecidableEq

/-- A candidate PEM string, partitioned as `pem.Decode` sees it: a block
with a declared type and DER bytes, or a string containing no PEM block
(`pem.Decode` returns nil; this includes the empty string). -/
inductive PemStr where
  | block (blockType : String) (bytes : KeyDer)
  | noBlock (raw : String)
deriving DecidableEq

/-- Whether a PEM-string value denotes the empty Go string: a PEM block
is never empty, so only `noBlock ""` is. -/
def PemStr.isEmptyStr : PemStr → Bool
  | .noBlock s => s = ""
  | _ => false

/-- The PEM block type required by `OrgCard.Validate`. -/
def pubKeyPemType : String := "PUBLIC KEY"

/-- Errors of `parsePublicKey` in org.go. -/
inductive KeyParseErr where
  | pkixParseFailed
  | notEcdsaKey
deriving DecidableEq

/-- `parsePublicKey` from org.go: `x509.ParsePKIXPublicKey` then a type
assertion to `*ecdsa.PublicKey`. -/
def parsePublicKey : KeyDer → Except KeyParseErr PublicKey
  | .ecdsaPub i => .ok ⟨i⟩
  | .otherPub _ => .error .notEcdsaKey
  | .badDer _ => .error .pkixParseFailed

/-- `ecdsa.VerifyASN1` under the EUF-CMA idealization: the signature
verifies exactly when it signs this digest with the matching key. -/
def ecdsaVerifyASN1 (pub : PublicKey) (hash : Digest) (sig : ChalSig) : Bool :=
  (sig.digest == hash) && (sig.keyId == pub.id)

/-- `SignChallenge` from org.go: SHA-256 digest, `ecdsa.SignASN1`,
base64 encoding.  The only Go failure mode (a broken randomness source)
is outside the model, so signing is total. -/
def SignChallenge (challenge : String) (privateKey : PrivateKey) : B64SigStr :=
  .enc { digest := sha256 challenge, keyId := privateKey.pub.id }

/-- Errors of `VerifySignature` in org.go. -/
inductive VerifyErr where
  | invalidPublicKeyFormat
  | failedToParsePublicKey (e : KeyParseErr)
  | invalidSignatureFormat
deriving DecidableEq

/-- `VerifySignature` from org.go: PEM decode, `parsePublicKey`, base64
decode of the signature, then `ecdsa.VerifyASN1` over the challenge
digest.  A base64-decodable non-signature makes `VerifyASN1` return
false, not an error. -/
def VerifySignature (challenge : String) (signature : B64SigStr)
    (publicKeyPEM : PemStr) : Except VerifyErr Bool :=
  match publicKeyPEM with
  | .noBlock _ => .error .invalidPublicKeyFormat
  | .block _ bytes =>
    match parsePublicKey bytes with
    | .error e => .error (.failedToParsePublicKey e)
    | .ok pubKey =>
      match signature with
      | .notB64 _ => .error .invalidSignatureFormat
      | .junk _ => .ok false
      | .enc sig => .ok (ecdsaVerifyASN1 pubKey (sha256 challenge) sig)

/-- `OrgCard` from org.go; the public key field is a string, modelled in
the PEM wire domain. -/
structure OrgCard where
  orgID : String
  name : String
  domain : String
  publicKey : PemStr
  verified : Bool
deriving DecidableEq

/-- Errors of `OrgCard.Validate`, one per distinct message. -/
inductive OrgCardErr where
  | orgIdRequired
  | nameRequired
  | domainRequired
  | publicKeyRequired
  | invalidPublicKeyFormat
  | publicKeyMustBePem
deriving DecidableEq

/-- `OrgCard.Validate` from org.go: four non-emptiness checks, then
`pem.Decode` must yield a block and the block type must be exactly
"PUBLIC KEY".  The block's DER bytes are never parsed here. -/
def OrgCard.Validate (oc : OrgCard) : Option OrgCardErr :=
  if oc.orgID = "" then some .orgIdRequired
  else if oc.name = "" then some .nameRequired
  else if oc.domain = "" then some .domainRequired
  else if oc.publicKey.isEmptyStr then some .publicKeyRequired
  else
    match oc.publicKey with
    | .noBlock _ => some .invalidPublicKeyFormat
    | .block t _ => if t ≠ pubKeyPemType then some .publicKeyMustBePem else none

/-! Concrete example values used by the witness theorems. -/

/-- Example org id. -/
def orgX : String := "org-x"

/-- Example private key of the issuing platform. -/
def kpA : PrivateKey := ⟨⟨0⟩⟩

/-- Example private key of an unrelated key pair. -/
def kpB : PrivateKey := ⟨⟨1⟩⟩

/-- Example challenge. -/
def chA : String := "challenge-a"

/-- Example second, different challenge. -/
def chB : String := "challenge-b"

/-! Helper lemmas shared across claims. -/

/-- ParseTokenWithPublicKey on a well-formed ES256 token whose signature
was produced over its own header and payload by the matching private key
reduces to claim validation. -/
lemma ParseTokenWithPublicKey_selfSigned (payload : RawClaims)
    (pk : PublicKey) (now : Int) :
    ParseTokenWithPublicKey
        (.wellFormed .es256 payload (.valid ⟨.es256, payload, pk.id⟩)) pk now
      = match validateClaims now payload with
        | [] => .ok payload
        | e :: errs => .error (.invalidClaims (e :: errs)) := by
  have hsig : ecdsaVerifyToken (.somePub pk) .es256 payload
      ⟨.es256, payload, pk.id⟩ = true := by
    simp [ecdsaVerifyToken]
  simp [ParseTokenWithPublicKey, parseWithClaims, SigAlg.isECDSA, hsig]

/-- Theorem for C1.  For every AgentCard whose org id differs from the
org id decoded out of the successfully verified org token,
IssueAgentToken returns exactly the org-id-mismatch error (so no token),
and that error is distinct from every wrapped verifier error. -/
theorem IssueAgentToken_delegation_mismatch
    (card : AgentCard) (orgToken : TokenStr) (privateKey : PrivateKey)
    (now : Int) (p : RawClaims)
    (hparse : ParseTokenWithPublicKey orgToken privateKey.pub now = .ok p)
    (hmismatch : (decodeOrgClaims p).orgID ≠ card.orgID) :
    IssueAgentToken card orgToken privateKey now = .error .orgIdMismatch ∧
    ∀ e : JwtError, (IssueErr.orgIdMismatch : IssueErr) ≠ .invalidOrgToken e := by
  constructor
  · unfold IssueAgentToken
    rw [hparse]
    simp [hmismatch]
  · intro e h
    exact IssueErr.noConfusion h

/-- Witness for C1: an org token for org-x presented with a card
claiming org-y is rejected with the mismatch error. -/
theorem IssueAgentToken_delegation_mismatch_witness :
    IssueAgentToken
        { agentID := "agent-1", orgID := "org-y", capabilities := []
          endpoints := [], verified := false }
        (IssueOrgToken orgX true kpA 0) kpA 10
      = .error .orgIdMismatch :=
  (IssueAgentToken_delegation_mismatch
    { agentID := "agent-1", orgID := "org-y", capabilities := []
      endpoints := [], verified := false }
    (IssueOrgToken orgX true kpA 0) kpA 10 (orgPayload orgX true 0)
    rfl (by decide)).1

/-- Theorem for C2.  When the presented org token verifies and its org
id matches the card, the issued agent token's verified claim equals the
org token's verified claim, whatever the card's own Verified field is
set to. -/
theorem IssueAgentToken_inherits_verified
    (card : AgentCard) (b : Bool) (orgToken : TokenStr)
    (privateKey : PrivateKey) (now : Int) (p : RawClaims) (v : Bool)
    (hparse : ParseTokenWithPublicKey orgToken privateKey.pub now = .ok p)
    (hmatch : (decodeOrgClaims p).orgID = card.orgID)
    (hver : p.verified = some v) :
    ∃ tok, IssueAgentToken { card with verified := b } orgToken privateKey now
        = .ok tok ∧
      tok.verifiedClaim = some v := by
  have hg : (decodeOrgClaims p).verified = v := by
    simp [decodeOrgClaims, hver, getBoolClaim]
  have hcond : ¬ ((decodeOrgClaims p).orgID
      ≠ ({ card with verified := b } : AgentCard).orgID) := by
    simp only [ne_eq, not_not]
    exact hmatch
  have hres : IssueAgentToken { card with verified := b } orgToken privateKey now
      = .ok (.wellFormed .es256
          (agentPayload { card with verified := b } ((decodeOrgClaims p).verified) now)
          (.valid ⟨.es256,
            agentPayload { card with verified := b } ((decodeOrgClaims p).verified) now,
            privateKey.pub.id⟩)) := by
    unfold IssueAgentToken
    rw [hparse]
    show (if (decodeOrgClaims p).orgID ≠ ({ card with verified := b } : AgentCard).orgID
        then (Except.error IssueErr.orgIdMismatch : Except IssueErr TokenStr)
        else .ok (.wellFormed .es256
          (agentPayload { card with verified := b } ((decodeOrgClaims p).verified) now)
          (.valid ⟨.es256,
            agentPayload { card with verified := b } ((decodeOrgClaims p).verified) now,
            privateKey.pub.id⟩))) = _
    rw [if_neg hcond]
  refine ⟨_, hres, ?_⟩
  simp [TokenStr.verifiedClaim, agentPayload, hg]

/-- Witness for C2: an org token with verified true and a card with
Verified false still yields an agent token with verified true. -/
theorem IssueAgentToken_inherits_verified_witness :
    ∃ tok, IssueAgentToken
        { agentID := "agent-1", orgID := "org-x", capabilities := []
          endpoints := [], verified := false }
        (IssueOrgToken orgX true kpA 0) kpA 10
        = .ok tok ∧
      tok.verifiedClaim = some true :=
  IssueAgentToken_inherits_verified
    { agentID := "agent-1", orgID := "org-x", capabilities := []
      endpoints := [], verified := true }
    false (IssueOrgToken orgX true kpA 0) kpA 10 (orgPayload orgX true 0)
    true rfl rfl rfl

/-- Theorem for C3.  Round trip of org tokens: verifying an issued org
token with the matching public key, at any time inside the validity
window, succeeds and returns claims with the input org id and verified
flag, the fixed issuer and audience, issued-at equal to the issuance
clock, and expiration equal to issued-at plus 3600 seconds. -/
theorem IssueOrgToken_roundTrip
    (orgID : String) (verified : Bool) (privateKey : PrivateKey)
    (now t : Int) (hlo : now ≤ t) (hhi : t < now + 3600) :
    ParseTokenWithPublicKey (IssueOrgToken orgID verified privateKey now)
        privateKey.pub t = .ok (orgPayload orgID verified now) ∧
    (decodeOrgClaims (orgPayload orgID verified now)).orgID = orgID ∧
    (decodeOrgClaims (orgPayload orgID verified now)).verified = verified ∧
    (decodeOrgClaims (orgPayload orgID verified now)).iss = TokenIssuer ∧
    (decodeOrgClaims (orgPayload orgID verified now)).aud = [OrgTokenAudience] ∧
    (orgPayload orgID verified now).iat = some now ∧
    (orgPayload orgID verified now).exp = some (now + 3600) := by
  have hone : IssueOrgToken orgID verified privateKey now
      = .wellFormed .es256 (orgPayload orgID verified now)
          (.valid ⟨.es256, orgPayload orgID verified now, privateKey.pub.id⟩) :=
    rfl
  have hval : validateClaims t (orgPayload orgID verified now) = [] := by
    simp [validateClaims, orgPayload, DefaultTokenExpiry, hlo, hhi]
  refine ⟨?_, ?_, ?_, ?_, ?_, ?_, ?_⟩
  · rw [hone, ParseTokenWithPublicKey_selfSigned, hval]
  · simp [decodeOrgClaims, orgPayload, getStringClaim]
  · simp [decodeOrgClaims, orgPayload, getBoolClaim]
  · simp [decodeOrgClaims, orgPayload, getStringClaim]
  · simp [decodeOrgClaims, orgPayload, getStringSliceClaim]
  · simp [orgPayload]
  · simp [orgPayload, DefaultTokenExpiry]

/-- Witness for C3 at a concrete org id, key and clock. -/
theorem IssueOrgToken_roundTrip_witness :
    ParseTokenWithPublicKey (IssueOrgToken orgX true kpA 100) kpA.pub 200
        = .ok (orgPayload orgX true 100) ∧
    (decodeOrgClaims (orgPayload orgX true 100)).orgID = orgX ∧
    (decodeOrgClaims (orgPayload orgX true 100)).verified = true ∧
    (decodeOrgClaims (orgPayload orgX true 100)).iss = TokenIssuer ∧
    (decodeOrgClaims (orgPayload orgX true 100)).aud = [OrgTokenAudience] ∧
    (orgPayload orgX true 100).iat = some 100 ∧
    (orgPayload orgX true 100).exp = some (100 + 3600) :=
  IssueOrgToken_roundTrip orgX true kpA 100 200 (by decide) (by decide)

/-- Every parse through the keyless keyfunc fails: garbage is malformed,
a non-ECDSA method is rejected by the keyfunc, an undecodable signature
segment is malformed, and with a nil key the ECDSA verification step
rejects, so a valid signature segment still fails. -/
lemma parseWithClaims_nilKeyfunc_fails (tok : TokenStr) (now : Int) :
    ∃ e, parseWithClaims tok nilKeyfunc now = .error e := by
  cases tok with
  | garbage s => exact ⟨.malformed, rfl⟩
  | wellFormed alg payload sigSeg =>
    cases alg <;> cases sigSeg <;> exact ⟨_, rfl⟩

/-- Theorem for C4.  The keyless parsers ParseOrgToken,
ParseAgentTokenClaims and ParseAgentToken return an error on every
token string, including every well-formed ES256-signed one; none of
them ever returns a claims value. -/
theorem keyless_parse_always_fails (tok : TokenStr) (now : Int) :
    (∃ e, ParseOrgToken tok now = .error e) ∧
    (∃ e, ParseAgentTokenClaims tok now = .error e) ∧
    (∃ e, ParseAgentToken tok now = .error e) := by
  obtain ⟨e, he⟩ := parseWithClaims_nilKeyfunc_fails tok now
  refine ⟨?_, ?_, ⟨.jwtError e, by simp [ParseAgentToken, he]⟩⟩
  · cases tok with
    | garbage s => exact ⟨.malformed, rfl⟩
    | wellFormed alg payload sigSeg => exact ⟨e, by simp [ParseOrgToken, he]⟩
  · cases tok with
    | garbage s => exact ⟨.malformed, rfl⟩
    | wellFormed alg payload sigSeg =>
      exact ⟨e, by simp [ParseAgentTokenClaims, he]⟩

/-- Payload with a future expiration but no issued-at claim, signed
correctly: the input refuting C5 as stated. -/
def missingIatPayload : RawClaims := { exp := some 100 }

/-- Counterexample for C5.  A correctly signed, otherwise well-formed
token that lacks the iat claim is accepted by ParseTokenWithPublicKey,
not rejected as malformed: WithIssuedAt only validates iat when it is
present. -/
theorem tokenWithoutIat_accepted :
    ParseTokenWithPublicKey
        (.wellFormed .es256 missingIatPayload
          (.valid ⟨.es256, missingIatPayload, 0⟩)) ⟨0⟩ 50
      = .ok missingIatPayload := rfl

/-- Payload with an issued-at claim but no expiration claim. -/
def noExpPayload : RawClaims := { iat := some 0 }

/-- Theorem for C5 as amended.  The verifier requires the exp claim: a
correctly signed token without exp is rejected with a
required-claim-missing failure, never accepted with a defaulted
timestamp.  The iat claim is not required: a correctly signed token with
a future exp and no iat (and no nbf) verifies successfully. -/
theorem temporal_claims_requirements :
    (∀ (payload : RawClaims) (pk : PublicKey) (now : Int),
      payload.exp = none →
      ParseTokenWithPublicKey
          (.wellFormed .es256 payload (.valid ⟨.es256, payload, pk.id⟩)) pk now
        = .error (.invalidClaims (validateClaims now payload)) ∧
      ClaimErr.requiredClaimMissing expClaimName ∈ validateClaims now payload) ∧
    (∀ (payload : RawClaims) (pk : PublicKey) (now e : Int),
      payload.iat = none → payload.nbf = none → payload.exp = some e →
      now < e →
      ParseTokenWithPublicKey
          (.wellFormed .es256 payload (.valid ⟨.es256, payload, pk.id⟩)) pk now
        = .ok payload) := by
  constructor
  · intro payload pk now hexp
    have hv : validateClaims now payload
        = ClaimErr.requiredClaimMissing expClaimName ::
          ((match payload.nbf with
            | none => []
            | some n => if n ≤ now then [] else [ClaimErr.notValidYet]) ++
           (match payload.iat with
            | none => []
            | some i => if i ≤ now then [] else [ClaimErr.usedBeforeIssued])) := by
      simp [validateClaims, hexp]
    constructor
    · rw [ParseTokenWithPublicKey_selfSigned, hv]
    · rw [hv]
      exact List.mem_cons_self _ _
  · intro payload pk now e hiat hnbf hexp hlt
    have hv : validateClaims now payload = [] := by
      simp [validateClaims, hexp, hiat, hnbf, hlt]
    rw [ParseTokenWithPublicKey_selfSigned, hv]

/-- Witness for C5 as amended: a signed token without exp is rejected
with the required-claim error, and a signed token without iat is
accepted. -/
theorem temporal_claims_requirements_witness :
    (ParseTokenWithPublicKey
        (.wellFormed .es256 noExpPayload (.valid ⟨.es256, noExpPayload, 0⟩))
        ⟨0⟩ 50
      = .error (.invalidClaims (validateClaims 50 noExpPayload))) ∧
    (ParseTokenWithPublicKey
        (.wellFormed .es256 missingIatPayload
          (.valid ⟨.es256, missingIatPayload, 0⟩)) ⟨0⟩ 50
      = .ok missingIatPayload) :=
  ⟨(temporal_claims_requirements.1 noExpPayload ⟨0⟩ 50 rfl).1,
    temporal_claims_requirements.2 missingIatPayload ⟨0⟩ 50 100 rfl rfl rfl
      (by decide)⟩

/-- Theorem for C6.  A token whose exp has passed but whose signature is
valid under the supplied key is rejected with the invalid-claims error
carrying the expired reason, which is a different error value from the
malformed, signature-invalid and unverifiable failures. -/
theorem expired_token_distinct_error
    (payload : RawClaims) (pk : PublicKey) (now e : Int)
    (hexp : payload.exp = some e) (hpast : e ≤ now) :
    ∃ errs, ParseTokenWithPublicKey
        (.wellFormed .es256 payload (.valid ⟨.es256, payload, pk.id⟩)) pk now
      = .error (.invalidClaims errs) ∧
      ClaimErr.expired ∈ errs ∧
      (JwtError.invalidClaims errs ≠ .malformed) ∧
      (JwtError.invalidClaims errs ≠ .signatureInvalid) ∧
      (JwtError.invalidClaims errs ≠ .unverifiable) := by
  have hnl : ¬ now < e := not_lt.mpr hpast
  have hv : validateClaims now payload
      = ClaimErr.expired ::
        ((match payload.nbf with
          | none => []
          | some n => if n ≤ now then [] else [ClaimErr.notValidYet]) ++
         (match payload.iat with
          | none => []
          | some i => if i ≤ now then [] else [ClaimErr.usedBeforeIssued])) := by
    simp [validateClaims, hexp, hnl]
  refine ⟨validateClaims now payload, ?_, ?_, by simp, by simp, by simp⟩
  · rw [ParseTokenWithPublicKey_selfSigned, hv]
  · rw [hv]
    exact List.mem_cons_self _ _

/-- Payload of a token that expired at 100, checked at 200. -/
def expiredPayload : RawClaims := { iat := some 0, exp := some 100 }

/-- Witness for C6 at a concrete expired token. -/
theorem expired_token_distinct_error_witness :
    ∃ errs, ParseTokenWithPublicKey
        (.wellFormed .es256 expiredPayload
          (.valid ⟨.es256, expiredPayload, 0⟩)) ⟨0⟩ 200
      = .error (.invalidClaims errs) ∧
      ClaimErr.expired ∈ errs ∧
      (JwtError.invalidClaims errs ≠ .malformed) ∧
      (JwtError.invalidClaims errs ≠ .signatureInvalid) ∧
      (JwtError.invalidClaims errs ≠ .unverifiable) :=
  expired_token_distinct_error expiredPayload ⟨0⟩ 200 100 rfl (by decide)

/-- Theorem for C7.  Challenge-signature round trip: verifying a signed
challenge with the signer's public key succeeds; a different challenge
or the public key of a different key pair makes verification return
false. -/
theorem challenge_signature_roundTrip
    (challenge : String) (kp : PrivateKey) (t : String) :
    (VerifySignature challenge (SignChallenge challenge kp)
        (.block t (.ecdsaPub kp.pub.id)) = .ok true) ∧
    (∀ c2, c2 ≠ challenge →
      VerifySignature c2 (SignChallenge challenge kp)
        (.block t (.ecdsaPub kp.pub.id)) = .ok false) ∧
    (∀ other : PrivateKey, other.pub ≠ kp.pub →
      VerifySignature challenge (SignChallenge challenge kp)
        (.block t (.ecdsaPub other.pub.id)) = .ok false) := by
  refine ⟨?_, ?_, ?_⟩
  · simp [VerifySignature, SignChallenge, parsePublicKey, ecdsaVerifyASN1]
  · intro c2 hne
    have hd : sha256 challenge ≠ sha256 c2 := by
      simp [sha256]
      exact fun h => hne h.symm
    simp [VerifySignature, SignChallenge, parsePublicKey, ecdsaVerifyASN1, hd]
  · intro other hne
    have hid : kp.pub.id ≠ other.pub.id := by
      intro h
      apply hne
      cases hk : kp.pub
      cases ho : other.pub
      rw [hk, ho] at h
      simp at h
      simp [h]
    simp [VerifySignature, SignChallenge, parsePublicKey, ecdsaVerifyASN1, hid]

/-- Witness for C7 at concrete challenges and key pairs. -/
theorem challenge_signature_roundTrip_witness :
    (VerifySignature chA (SignChallenge chA kpA)
        (.block pubKeyPemType (.ecdsaPub kpA.pub.id)) = .ok true) ∧
    (VerifySignature chB (SignChallenge chA kpA)
        (.block pubKeyPemType (.ecdsaPub kpA.pub.id)) = .ok false) ∧
    (VerifySignature chA (SignChallenge chA kpA)
        (.block pubKeyPemType (.ecdsaPub kpB.pub.id)) = .ok false) :=
  ⟨(challenge_signature_roundTrip chA kpA pubKeyPemType).1,
    (challenge_signature_roundTrip chA kpA pubKeyPemType).2.1 chB (by decide),
    (challenge_signature_roundTrip chA kpA pubKeyPemType).2.2 kpB (by decide)⟩

/-- Whether `pem.Decode` finds no block in the string. -/
def pemUndecodable : PemStr → Bool
  | .noBlock _ => true
  | .block _ _ => false

/-- Whether the string holds a PEM block whose DER bytes do not parse as
an ECDSA public key (wrong algorithm or unparseable bytes). -/
def pemKeyNotEcdsa : PemStr → Bool
  | .block _ (.ecdsaPub _) => false
  | .block _ _ => true
  | .noBlock _ => false

/-- Whether the signature string is not valid base64. -/
def sigNotBase64 : B64SigStr → Bool
  | .notB64 _ => true
  | _ => false

/-- Theorem for C8.  VerifySignature returns an error exactly when the
PEM block is undecodable, the key material does not parse as an ECDSA
public key, or the signature is not valid base64; on structurally valid
inputs whose signature is cryptographically incorrect (a wrong signature
value, or decodable bytes that are no signature at all) it returns false
with no error. -/
theorem VerifySignature_error_separation
    (challenge : String) (sg : B64SigStr) (pem : PemStr) :
    ((∃ e, VerifySignature challenge sg pem = .error e) ↔
      (pemUndecodable pem = true ∨ pemKeyNotEcdsa pem = true ∨
        sigNotBase64 sg = true)) ∧
    (∀ t kid s, pem = .block t (.ecdsaPub kid) → sg = .enc s →
      ecdsaVerifyASN1 ⟨kid⟩ (sha256 challenge) s = false →
      VerifySignature challenge sg pem = .ok false) ∧
    (∀ t kid s, pem = .block t (.ecdsaPub kid) → sg = .junk s →
      VerifySignature challenge sg pem = .ok false) := by
  refine ⟨?_, ?_, ?_⟩
  · cases pem with
    | noBlock s =>
      cases sg <;>
        simp [VerifySignature, pemUndecodable, pemKeyNotEcdsa, sigNotBase64]
    | block t bytes =>
      cases bytes <;> cases sg <;>
        simp [VerifySignature, parsePublicKey, pemUndecodable, pemKeyNotEcdsa,
          sigNotBase64]
  · intro t kid s hp hs hv
    subst hp
    subst hs
    simp [VerifySignature, parsePublicKey, hv]
  · intro t kid s hp hs
    subst hp
    subst hs
    simp [VerifySignature, parsePublicKey]

/-- String standing for undecodable raw input. -/
def rawJunk : String := "junk"

/-- Witness for C8: a non-base64 signature string yields an error even
with a good key, while a well-formed signature over the wrong challenge
yields false without an error. -/
theorem VerifySignature_error_separation_witness :
    (∃ e, VerifySignature chA (.notB64 rawJunk)
        (.block pubKeyPemType (.ecdsaPub 0)) = .error e) ∧
    (VerifySignature chA (.enc ⟨sha256 chB, 0⟩)
        (.block pubKeyPemType (.ecdsaPub 0)) = .ok false) :=
  ⟨(VerifySignature_error_separation chA (.notB64 rawJunk)
      (.block pubKeyPemType (.ecdsaPub 0))).1.mpr (Or.inr (Or.inr rfl)),
    (VerifySignature_error_separation chA (.enc ⟨sha256 chB, 0⟩)
      (.block pubKeyPemType (.ecdsaPub 0))).2.1 pubKeyPemType 0
      ⟨sha256 chB, 0⟩ rfl rfl (by decide)⟩

/-- Organization card whose PEM block has the right type but bytes that
are not a structurally valid public key. -/
def badBytesCard : OrgCard :=
  { orgID := "org-1", name := "Org One", domain := "org.example"
    publicKey := .block pubKeyPemType (.badDer rawJunk), verified := false }

/-- Counterexample for C9.  A card whose public key field is a PEM block
of type "PUBLIC KEY" with bytes that do not parse as any public key is
accepted by OrgCard.Validate (the bytes are shown unparseable by
parsePublicKey), contradicting the claim that Validate requires the key
material to decode as a well-formed public key. -/
theorem OrgCard_Validate_accepts_bad_key_bytes :
    OrgCard.Validate badBytesCard = none ∧
    parsePublicKey (.badDer rawJunk) = .error .pkixParseFailed :=
  ⟨rfl, rfl⟩

/-- Theorem for C9 as amended.  OrgCard.Validate succeeds exactly when
all four string fields are non-empty and the public key decodes as a
PEM block of type exactly "PUBLIC KEY" (its bytes are not inspected);
a decodable block of a wrong type and an undecodable string are rejected
with two distinct error values. -/
theorem OrgCard_Validate_characterization (oc : OrgCard) :
    (OrgCard.Validate oc = none ↔
      (oc.orgID ≠ "" ∧ oc.name ≠ "" ∧ oc.domain ≠ "" ∧
        ∃ b, oc.publicKey = .block pubKeyPemType b)) ∧
    (∀ t b, oc.orgID ≠ "" → oc.name ≠ "" → oc.domain ≠ "" →
      oc.publicKey = .block t b → t ≠ pubKeyPemType →
      OrgCard.Validate oc = some .publicKeyMustBePem) ∧
    (∀ s, oc.orgID ≠ "" → oc.name ≠ "" → oc.domain ≠ "" →
      oc.publicKey = .noBlock s → s ≠ "" →
      OrgCard.Validate oc = some .invalidPublicKeyFormat) ∧
    (OrgCardErr.publicKeyMustBePem ≠ OrgCardErr.invalidPublicKeyFormat) := by
  refine ⟨?_, ?_, ?_, by simp⟩
  · by_cases h1 : oc.orgID = ""
    · simp [OrgCard.Validate, h1]
    by_cases h2 : oc.name = ""
    · simp [OrgCard.Validate, h1, h2]
    by_cases h3 : oc.domain = ""
    · simp [OrgCard.Validate, h1, h2, h3]
    cases hpk : oc.publicKey with
    | noBlock s =>
      by_cases hs : s = "" <;>
        simp [OrgCard.Validate, h1, h2, h3, hpk, PemStr.isEmptyStr, hs]
    | block t b =>
      by_cases ht : t = pubKeyPemType <;>
        simp [OrgCard.Validate, h1, h2, h3, hpk, PemStr.isEmptyStr, ht]
  · intro t b h1 h2 h3 hpk ht
    simp [OrgCard.Validate, h1, h2, h3, hpk, PemStr.isEmptyStr, ht]
  · intro s h1 h2 h3 hpk hs
    simp [OrgCard.Validate, h1, h2, h3, hpk, PemStr.isEmptyStr, hs]

/-- A decodable PEM block type other than "PUBLIC KEY". -/
def certPemType : String := "CERTIFICATE"

/-- Card whose PEM block decodes but has the wrong type. -/
def wrongTypeCard : OrgCard :=
  { orgID := "org-1", name := "Org One", domain := "org.example"
    publicKey := .block certPemType (.ecdsaPub 0), verified := false }

/-- Card whose public key string contains no PEM block at all. -/
def noBlockCard : OrgCard :=
  { orgID := "org-1", name := "Org One", domain := "org.example"
    publicKey := .noBlock rawJunk, verified := false }

/-- Witness for C9 as amended: validity of a good card, and the two
distinct rejections. -/
theorem OrgCard_Validate_characterization_witness :
    (OrgCard.Validate badBytesCard = none) ∧
    (OrgCard.Validate wrongTypeCard = some .publicKeyMustBePem) ∧
    (OrgCard.Validate noBlockCard = some .invalidPublicKeyFormat) :=
  ⟨(OrgCard_Validate_characterization badBytesCard).1.mpr
      (by exact ⟨by decide, by decide, by decide, ⟨.badDer rawJunk, rfl⟩⟩),
    (OrgCard_Validate_characterization wrongTypeCard).2.1 certPemType
      (.ecdsaPub 0) (by decide) (by decide) (by decide) rfl (by decide),
    (OrgCard_Validate_characterization noBlockCard).2.2.1 rawJunk
      (by decide) (by decide) (by decide) rfl (by decide)⟩

/-- Card failing AgentCard.Validate on two counts: empty agent id and
empty capability list, but with a matching org id. -/
def invalidAgentCard : AgentCard :=
  { agentID := "", orgID := "org-x", capabilities := [], endpoints := []
    verified := false }

/-- Counterexample for C10.  A card that fails AgentCard.Validate still
receives an agent token from IssueAgentToken when the presented org
token verifies and its org id matches: issuance is not gated by card
validation. -/
theorem IssueAgentToken_skips_card_validation :
    AgentCard.Validate invalidAgentCard = some .agentIdRequired ∧
    (∃ tok, IssueAgentToken invalidAgentCard (IssueOrgToken orgX true kpA 0)
        kpA 10 = .ok tok) :=
  ⟨rfl, ⟨_, rfl⟩⟩

/-- Theorem for C10 as amended.  IssueAgentToken performs no identity
card validation itself: for every card rejected by AgentCard.Validate,
if the presented org token verifies under the issuer key and its org id
matches the card's, a token is issued anyway.  (Card validation happens
in the HTTP client, before the issuance request is sent.) -/
theorem IssueAgentToken_issues_for_invalid_card
    (card : AgentCard) (err : AgentCardErr) (orgToken : TokenStr)
    (privateKey : PrivateKey) (now : Int) (p : RawClaims)
    (_hbad : AgentCard.Validate card = some err)
    (hparse : ParseTokenWithPublicKey orgToken privateKey.pub now = .ok p)
    (hmatch : (decodeOrgClaims p).orgID = card.orgID) :
    ∃ tok, IssueAgentToken card orgToken privateKey now = .ok tok := by
  have hcond : ¬ ((decodeOrgClaims p).orgID ≠ card.orgID) := by
    simp only [ne_eq, not_not]
    exact hmatch
  refine ⟨.wellFormed .es256 (agentPayload card ((decodeOrgClaims p).verified) now)
    (.valid ⟨.es256, agentPayload card ((decodeOrgClaims p).verified) now,
      privateKey.pub.id⟩), ?_⟩
  unfold IssueAgentToken
  rw [hparse]
  show (if (decodeOrgClaims p).orgID ≠ card.orgID
      then (Except.error IssueErr.orgIdMismatch : Except IssueErr TokenStr)
      else .ok (.wellFormed .es256
        (agentPayload card ((decodeOrgClaims p).verified) now)
        (.valid ⟨.es256, agentPayload card ((decodeOrgClaims p).verified) now,
          privateKey.pub.id⟩))) = _
  rw [if_neg hcond]

/-- Witness for C10 as amended, at the concrete invalid card. -/
theorem IssueAgentToken_issues_for_invalid_card_witness :
    ∃ tok, IssueAgentToken invalidAgentCard (IssueOrgToken orgX true kpA 20)
        kpA 30 = .ok tok :=
  IssueAgentToken_issues_for_invalid_card invalidAgentCard .agentIdRequired
    (IssueOrgToken orgX true kpA 20) kpA 30 (orgPayload orgX true 20)
    rfl rfl rfl

end Atoa
